import Mathlib

set_option linter.unusedSectionVars false

/-!
Verification of `KryneEngine::FlatHashMap`
(`src/Core/Include/KryneEngine/Core/Memory/Containers/FlatHashMap.{hpp,inl}`).

The map is embedded shallowly: the two parallel buffers become Lean lists, the
`size_t` arithmetic becomes `Nat` arithmetic with explicit `% 2 ^ 64` where the
source relies on 64-bit truncation, and the mutually recursive
`FindAndAllocateSlot` / `Grow` pair is given an explicit fuel parameter
(`none` = fuel exhausted; with the fuel in this file every concrete run below
terminates well before exhaustion).  Fallible operations — `Find` and `Remove`
divide by `m_capacity`, which faults on a capacity-0 map — return `Except`.

The caller-supplied pieces (hash function, the SIMD arch constants
`Math::SimdHighestArch::alignment()` and the batch width, which live in
headers outside the reviewed sources) are bundled in a `Cfg` parameter.
-/

namespace FlatHashMap

/-- Control-byte sentinel `kUnused = 0b1000'0000`. -/
def kUnused : Nat := 128

/-- Control-byte sentinel `kTombstone = 0b1000'0001`. -/
def kTombstone : Nat := 129

/-- `kAvailableSlotFlag = 1 << 7`. -/
def kAvailableSlotFlag : Nat := 128

/-- Verbatim from the source (`FlatHashMap.hpp`):
`kControlAlignment = kUseSimd ? 1 : Math::SimdHighestArch::alignment()`.
`archAlignment` stands for `Math::SimdHighestArch::alignment()`. -/
def kControlAlignment (useSimd : Bool) (archAlignment : Nat) : Nat :=
  if useSimd then 1 else archAlignment

/-- Verbatim from the source:
`kControlBufferPadding = kControlAlignment == 1 ? 0 : kControlAlignment`. -/
def kControlBufferPadding (useSimd : Bool) (archAlignment : Nat) : Nat :=
  if kControlAlignment useSimd archAlignment = 1 then 0
  else kControlAlignment useSimd archAlignment

/-- Modelled from the spec: `Alignment::AlignUp` (header not in `src/`), which
rounds `n` up to the next multiple of the alignment `a`. -/
def alignUp (n a : Nat) : Nat :=
  if a = 0 then n else (n + a - 1) / a * a

/-- Helper for `lsb`: structural recursion on the first argument, which only
needs to exceed the number of halvings (`n` itself is always enough). -/
def lsbAux : Nat → Nat → Nat
  | 0, _ => 0
  | f + 1, n => if n % 2 = 1 then 0 else lsbAux f (n / 2) + 1

/-- Modelled from the spec: `BitUtils::GetLeastSignificantBit` (header not in
`src/`): the index of the least significant set bit of a nonzero word. -/
def lsb (n : Nat) : Nat := lsbAux n n

/-- Modelled from the spec: `BitUtils::BitMask<u64>(b)`: the mask of the `b`
lowest bits. -/
def lowMask (b : Nat) : Nat := 2 ^ b - 1

/-- External parameters of the map: the caller-supplied hash function
(`eastl::hash<Key>`), `Math::SimdHighestArch::alignment()`, and the SIMD
batch width (number of `u8` lanes in `xsimd::batch<u8, Arch>`). -/
structure Cfg (Key : Type) where
  hashFn : Key → Nat
  arch : Nat
  w : Nat

/-- The map state: `m_capacity`, `m_count`, the key-value slot buffer and the
control-byte buffer (`u8` values as `Nat`). -/
structure Map (Key Value : Type) where
  capacity : Nat
  count : Nat
  kvp : List (Key × Value)
  control : List Nat
deriving DecidableEq

instance {Key Value : Type} : Inhabited (Map Key Value) :=
  ⟨⟨0, 0, [], []⟩⟩

variable {Key Value : Type} [DecidableEq Key] [Inhabited Key] [Inhabited Value]

/-- The 64-bit hash value of a key (`size_t hash = eastl::hash<Key>()(_key)`). -/
def hashOf (cfg : Cfg Key) (k : Key) : Nat := cfg.hashFn k % 2 ^ 64

/-- The capacity-0 branch of `Grow`: allocate both buffers, the capacity
rounded up with `Alignment::AlignUp(_newCapacity, kControlAlignment)`, the
control buffer over-allocated by `kControlBufferPadding` bytes and filled with
`kUnused`.  The kvp buffer is uninitialized in C++; it is modelled with
`default` payloads, which the code never reads while a slot is unoccupied. -/
def growFresh (cfg : Cfg Key) (newCapacity : Nat) : Map Key Value :=
  let cap := alignUp newCapacity (kControlAlignment false cfg.arch)
  { capacity := cap
    count := 0
    kvp := List.replicate cap default
    control := List.replicate (cap + kControlBufferPadding false cfg.arch) kUnused }

/-- The constructor `FlatHashMap(_allocator, _initialCapacity)`: lazily keeps
capacity 0, otherwise calls `Grow(_initialCapacity)` (capacity-0 branch). -/
def mapNew (cfg : Cfg Key) (initialCapacity : Nat) : Map Key Value :=
  if initialCapacity = 0 then default else growFresh cfg initialCapacity

/-- The scalar probe loop of `FindAndAllocateSlot` (`FlatHashMap.inl`,
`!kUseSimd` branch): the loop counter `i` of the source runs from 0 up to
`m_capacity`; here `n` counts the remaining iterations (`n = m_capacity - i`)
so the recursion is structural.  Within one iteration the source first (when
`!Fast`) tests `controlSlot == control && m_kvpBuffer[probeIndex].first ==
_key`, then claims the slot when `controlSlot & kAvailableSlotFlag` is set.
Exhausting the loop is the `KE_ERROR("Unreachable code")` path, which returns
`{ end(), false }`, modelled as `(m, none, false)`. -/
def probeLoop (fast : Bool) (m : Map Key Value) (key : Key) (frag : Nat) :
    Nat → Nat → Map Key Value × Option Nat × Bool
  | 0, _ => (m, none, false)
  | n + 1, p =>
    let c := m.control.getD p kUnused
    if fast = false ∧ c = frag ∧ (m.kvp.getD p default).1 = key then
      (m, some p, false)
    else if c &&& kAvailableSlotFlag ≠ 0 then
      ({ m with control := m.control.set p frag, count := m.count + 1 }, some p, true)
    else
      probeLoop fast m key frag n ((p + 1) % m.capacity)

/-- `new (result.first) kvp(_kvp)`: the caller of `FindAndAllocateSlot` writes
the key-value pair into the returned slot. -/
def writeKvp (r : Map Key Value × Option Nat × Bool) (pair : Key × Value) :
    Map Key Value :=
  match r.2.1 with
  | some j => { r.1 with kvp := r.1.kvp.set j pair }
  | none => r.1

/-- The loop of the capacity-nonzero branch of `Grow`:
`for (auto i = 0; i < m_count; ++i)` re-inserting, via the unstable fast path
`ins`, every slot among the first `m_count`(!) whose control byte has
`kAvailableSlotFlag` clear.  `is` is the list of remaining loop indices. -/
def growLoop (ins : Map Key Value → Key × Value → Option (Map Key Value))
    (src : Map Key Value) : Map Key Value → List Nat → Option (Map Key Value)
  | temp, [] => some temp
  | temp, i :: rest =>
    if src.control.getD i kUnused &&& kAvailableSlotFlag = 0 then
      match ins temp (src.kvp.getD i default) with
      | none => none
      | some temp2 => growLoop ins src temp2 rest
    else growLoop ins src temp rest

/-- `Grow(_newCapacity)`, parametrized by the unstable insert `ins` used for
re-placement (`EmplaceUnstable` / `InsertUnstable`).  The capacity-nonzero
branch builds `FlatHashMap temp(m_allocator, _newCapacity)` and iterates the
first `m_count` slot indices (the source's loop bound), then move-assigns. -/
def growWith (cfg : Cfg Key)
    (ins : Map Key Value → Key × Value → Option (Map Key Value))
    (m : Map Key Value) (newCapacity : Nat) : Option (Map Key Value) :=
  if m.capacity = 0 then some (growFresh cfg newCapacity)
  else growLoop ins m (mapNew cfg newCapacity) (List.range m.count)

/-- `FindAndAllocateSlot<Fast>(_key)` with explicit fuel for the mutual
recursion with `Grow` (`none` = fuel exhausted).  First the load-factor
pre-check: capacity 0 grows to 32, otherwise grow to `m_capacity * 2` when
`(m_count + 1) / m_capacity > 0.7`; the `double` comparison of the source is
modelled as the exact rational comparison `10 * (count + 1) > 7 * capacity`,
and the sum `m_count + 1` is computed in `size_t`, so it wraps to 0 when
`m_count` has underflowed to `2 ^ 64 - 1` (see `removeM`).
Then the scalar probe loop runs from `hash % m_capacity`. -/
def fasF (cfg : Cfg Key) : Nat → Bool → Map Key Value → Key →
    Option (Map Key Value × Option Nat × Bool)
  | 0, _, _, _ => none
  | fuel + 1, fast, m, k =>
    let grown : Option (Map Key Value) :=
      if m.capacity = 0 then
        growWith cfg
          (fun temp pair => (fasF cfg fuel true temp pair.1).map
            (fun r => writeKvp r pair)) m 32
      else if 10 * ((m.count + 1) % 2 ^ 64) > 7 * m.capacity then
        growWith cfg
          (fun temp pair => (fasF cfg fuel true temp pair.1).map
            (fun r => writeKvp r pair)) m (m.capacity * 2)
      else some m
    match grown with
    | none => none
    | some m1 =>
      let h := hashOf cfg k
      some (probeLoop fast m1 k (h >>> 57) m1.capacity (h % m1.capacity))

/-- `Grow(_newCapacity)` as invoked with `EmplaceUnstable` for re-placement. -/
def growF (cfg : Cfg Key) (fuel : Nat) (m : Map Key Value) (newCapacity : Nat) :
    Option (Map Key Value) :=
  growWith cfg
    (fun temp pair => (fasF cfg fuel true temp pair.1).map
      (fun r => writeKvp r pair)) m newCapacity

/-- `Insert` / `Emplace` (stable): run `FindAndAllocateSlot<false>` and write
the pair into the slot only when it was newly claimed (`result.second`). -/
def insertF (cfg : Cfg Key) (fuel : Nat) (m : Map Key Value)
    (pair : Key × Value) : Option (Map Key Value × Option Nat × Bool) :=
  match fasF cfg fuel false m pair.1 with
  | none => none
  | some r => some (if r.2.2 then (writeKvp r pair, r.2.1, r.2.2) else r)

/-- `InsertUnstable` / `EmplaceUnstable`: run `FindAndAllocateSlot<true>` and
write the pair into the returned slot unconditionally. -/
def emplaceUnstableF (cfg : Cfg Key) (fuel : Nat) (m : Map Key Value)
    (pair : Key × Value) : Option (Map Key Value × Option Nat × Bool) :=
  match fasF cfg fuel true m pair.1 with
  | none => none
  | some r => some (writeKvp r pair, r.2.1, r.2.2)

/-- Errors of the fallible paths: `.modZero` marks `hash % m_capacity` with
`m_capacity == 0` (C++ integer division by zero — the source has no guard). -/
inductive MapError where
  | modZero
deriving DecidableEq

/-- The loop of the scalar branch of `Find`.  Faithful to the source bug: the
source binds `u8& control = m_controlBuffer[probeIndex];` once, before the
loop, and never rebinds it, so every iteration re-tests the control byte at
the *initial* probe index (`control0` here) while `probeIndex` advances. -/
def findLoop (m : Map Key Value) (key : Key) (frag control0 : Nat) :
    Nat → Nat → Option Nat
  | 0, _ => none
  | n + 1, p =>
    if control0 = kUnused then none
    else if control0 = frag ∧ (m.kvp.getD p default).1 = key then some p
    else findLoop m key frag control0 n ((p + 1) % m.capacity)

/-- `Find(_key)`, scalar strategy: derive `hash`, the 7-bit fragment
(`hash >> 57` on a 64-bit `size_t`) and the start index `hash % m_capacity`,
then run the scalar probe loop.  `some j` is a hit at slot `j`; `none` is the
`end()` marker. -/
def find (cfg : Cfg Key) (m : Map Key Value) (key : Key) :
    Except MapError (Option Nat) :=
  if m.capacity = 0 then .error .modZero
  else
    let h := hashOf cfg key
    .ok (findLoop m key (h >>> 57) (m.control.getD (h % m.capacity) kUnused)
      m.capacity (h % m.capacity))

/-- `Remove(_key)`: run `Find`; on a hit decrement `m_count` and overwrite the
slot's control byte with `kTombstone` (payload untouched), returning `true`;
otherwise return `false` with the map unchanged.  `m_count` is a `size_t`, so
`--m_count` at 0 wraps around to `2 ^ 64 - 1`; the decrement is modelled with
that wrap (and the wrap is reachable: the bound-once reference bug of `Find`
makes `Remove` of an absent key hit the stale payload of a tombstoned slot,
see `c7_load_factor_violated`). -/
def removeM (cfg : Cfg Key) (m : Map Key Value) (key : Key) :
    Except MapError (Map Key Value × Bool) :=
  match find cfg m key with
  | .error e => .error e
  | .ok none => .ok (m, false)
  | .ok (some j) =>
    .ok ({ m with
            count := (m.count + 2 ^ 64 - 1) % 2 ^ 64,
            control := m.control.set j kTombstone },
      true)

/-- The occupied (key, value) pairs of the map in slot order: the iteration
`begin()`/`end()` filtered by `IsValidEntry`, i.e. the slots whose control
byte has `kAvailableSlotFlag` clear. -/
def occupiedPairs (m : Map Key Value) : List (Key × Value) :=
  (m.control.zip m.kvp).filterMap
    (fun cp => if cp.1 &&& kAvailableSlotFlag = 0 then some cp.2 else none)

/-- Loop of `Defragment`: iterate every slot (`begin()` to `end()`, i.e. all
`m_capacity` of them, unlike `Grow`), and `EmplaceUnstable` each valid entry
into the same-capacity temporary. `l` pairs each slot's control byte with its
payload. -/
def defragLoop (cfg : Cfg Key) (fuel : Nat) :
    Map Key Value → List (Nat × (Key × Value)) → Option (Map Key Value)
  | temp, [] => some temp
  | temp, cp :: rest =>
    if cp.1 &&& kAvailableSlotFlag = 0 then
      match emplaceUnstableF cfg fuel temp cp.2 with
      | none => none
      | some r => defragLoop cfg fuel r.1 rest
    else defragLoop cfg fuel temp rest

/-- `Defragment()`: early-out on capacity 0, otherwise build
`FlatHashMap temp(m_allocator, m_capacity)`, re-insert every valid entry with
the unstable fast path, and move-assign the temporary over `*this`. -/
def defragmentF (cfg : Cfg Key) (fuel : Nat) (m : Map Key Value) :
    Option (Map Key Value) :=
  if m.capacity = 0 then some m
  else defragLoop cfg fuel (growFresh cfg m.capacity) (m.control.zip m.kvp)

/-! ### Vectorized strategy (`kUseSimd` branches)

The SIMD strategy is modelled lane by lane: a batch load reads `cfg.w`
consecutive control bytes, `.mask()` maps lane `i` to bit `i`.  Under the
source constants the SIMD build has `kControlAlignment = 1` and
`kControlBufferPadding = 0` (see `kControlAlignment`), so the loops advance
one byte per iteration and the control buffer has no padding.  A batch load
whose byte range leaves the allocated control buffer is an out-of-bounds read
in C++; it is modelled as the error `.oobLoad`. -/

/-- Errors of the vectorized paths. `.innerLoop` marks non-termination of the
`while (matchMask != 0)` inner loop (see `vecInnerMatch`); `.assertFail` marks
the failing `KE_ASSERT(firstAvailableIndex < m_capacity)` followed by an
out-of-bounds control write; `.fuelOut` is exhausted modelling fuel. -/
inductive VecError where
  | oobLoad
  | innerLoop
  | assertFail
  | modZero
  | fuelOut
deriving DecidableEq

/-- `xsimd::load_unaligned(m_controlBuffer + p)`: read `w` consecutive control
bytes, or `none` when the range leaves the allocated buffer. -/
def vecLoad (control : List Nat) (p w : Nat) : Option (List Nat) :=
  if p + w ≤ control.length then some ((control.drop p).take w) else none

/-- `.mask()` of a lane-wise comparison: bit `i` is set iff lane `i` of the
window satisfies the predicate. -/
def laneMask : List Nat → (Nat → Bool) → Nat
  | [], _ => 0
  | c :: rest, pred => (if pred c then 1 else 0) + 2 * laneMask rest pred

/-- The inner `while (matchMask != 0)` loop shared by the vectorized `Find`
and stable `FindAndAllocateSlot`.  Faithful to the source: it accumulates
`offset += bitIndex` and then shifts `matchMask <<= bitIndex` (a left shift,
truncated to 64 bits).  When bit 0 of `matchMask` is set and the key at the
probed slot does not compare equal, `bitIndex = 0` leaves the state unchanged
and the C++ loop never terminates; the fuel models that as `.innerLoop`. -/
def vecInnerMatch (m : Map Key Value) (key : Key) (p : Nat) :
    Nat → Nat → Nat → Except VecError (Option Nat)
  | 0, _, _ => .error .innerLoop
  | f + 1, offset, mm =>
    if mm = 0 then .ok none
    else
      let bitIndex := lsb mm
      let offset2 := offset + bitIndex
      let mm2 := (mm <<< bitIndex) % 2 ^ 64
      if (m.kvp.getD (p + offset2) default).1 = key then .ok (some (p + offset2))
      else vecInnerMatch m key p f offset2 mm2

/-- The loop of the vectorized branch of `Find`.  The countdown `n` models the
source's `while (i < m_capacity)` with `i += kControlAlignment`, which under
the SIMD build advances by 1 (see `kControlAlignment`). -/
def vecFindLoop (cfg : Cfg Key) (m : Map Key Value) (key : Key) (frag : Nat) :
    Nat → Nat → Except VecError (Option Nat)
  | 0, _ => .ok none
  | n + 1, p =>
    match vecLoad m.control p cfg.w with
    | none => .error .oobLoad
    | some window =>
      let unusedMask := laneMask window (fun c => c == kUnused)
      let expectedMask := laneMask window (fun c => c == frag)
      if expectedMask = 0 then
        if unusedMask ≠ 0 then .ok none
        else vecFindLoop cfg m key frag n
          ((p + kControlAlignment true cfg.arch) % m.capacity)
      else
        let bitmask := if unusedMask = 0 then 2 ^ 64 - 1 else lowMask (lsb unusedMask)
        match vecInnerMatch m key p 128 0 (expectedMask &&& bitmask) with
        | .error e => .error e
        | .ok (some j) => .ok (some j)
        | .ok none =>
          if unusedMask ≠ 0 then .ok none
          else vecFindLoop cfg m key frag n
            ((p + kControlAlignment true cfg.arch) % m.capacity)

/-- `Find(_key)`, vectorized strategy. -/
def vecFind (cfg : Cfg Key) (m : Map Key Value) (key : Key) :
    Except VecError (Option Nat) :=
  if m.capacity = 0 then .error .modZero
  else
    let h := hashOf cfg key
    vecFindLoop cfg m key (h >>> 57) m.capacity (h % m.capacity)

/-- `Remove(_key)` under the vectorized strategy (it runs `Find`).  Like
`removeM`, the `size_t` decrement of `m_count` wraps at 0. -/
def vecRemove (cfg : Cfg Key) (m : Map Key Value) (key : Key) :
    Except VecError (Map Key Value × Bool) :=
  match vecFind cfg m key with
  | .error e => .error e
  | .ok none => .ok (m, false)
  | .ok (some j) =>
    .ok ({ m with
            count := (m.count + 2 ^ 64 - 1) % 2 ^ 64,
            control := m.control.set j kTombstone },
      true)

/-- Capacity-0 branch of `Grow` under the SIMD build: the same code as
`growFresh` but with the SIMD values of `kControlAlignment` (= 1) and
`kControlBufferPadding` (= 0): no rounding, no padding. -/
def vecGrowFresh (cfg : Cfg Key) (newCapacity : Nat) : Map Key Value :=
  let cap := alignUp newCapacity (kControlAlignment true cfg.arch)
  { capacity := cap
    count := 0
    kvp := List.replicate cap default
    control := List.replicate (cap + kControlBufferPadding true cfg.arch) kUnused }

/-- Constructor under the SIMD build. -/
def vecMapNew (cfg : Cfg Key) (initialCapacity : Nat) : Map Key Value :=
  if initialCapacity = 0 then default else vecGrowFresh cfg initialCapacity

/-- Claiming `firstAvailableIndex` in the vectorized stable insert:
`KE_ASSERT(firstAvailableIndex < m_capacity)` then write the control byte and
bump the count.  When the index is out of range the assert fires (and the
write would be out of bounds): `.assertFail`. -/
def vecClaim (m : Map Key Value) (frag fAI : Nat) :
    Except VecError (Map Key Value × Option Nat × Bool) :=
  if fAI < m.capacity then
    .ok ({ m with control := m.control.set fAI frag, count := m.count + 1 },
      some fAI, true)
  else .error .assertFail

/-- The `Fast` (unstable) vectorized probe loop of `FindAndAllocateSlot`:
claim the first lane with `kAvailableSlotFlag` set whose absolute index is
below capacity; otherwise advance by `kControlAlignment` (= 1). -/
def vecFastLoop (cfg : Cfg Key) (m : Map Key Value) (frag : Nat) :
    Nat → Nat → Except VecError (Map Key Value × Option Nat × Bool)
  | 0, _ => .ok (m, none, false)
  | n + 1, p =>
    match vecLoad m.control p cfg.w with
    | none => .error .oobLoad
    | some window =>
      let availMask := laneMask window
        (fun c => c &&& kAvailableSlotFlag == kAvailableSlotFlag)
      if availMask ≠ 0 ∧ lsb availMask + p < m.capacity then
        .ok ({ m with
                control := m.control.set (p + lsb availMask) frag,
                count := m.count + 1 },
          some (p + lsb availMask), true)
      else vecFastLoop cfg m frag n
        ((p + kControlAlignment true cfg.arch) % m.capacity)

/-- The stable vectorized probe loop of `FindAndAllocateSlot`: remember the
first available lane in `fAI`, compare keys on fragment-matching lanes below
the first unused lane, claim `fAI` when an unused lane proves the key absent. -/
def vecStableLoop (cfg : Cfg Key) (m : Map Key Value) (key : Key) (frag : Nat) :
    Nat → Nat → Nat → Except VecError (Map Key Value × Option Nat × Bool)
  | 0, _, _ => .ok (m, none, false)
  | n + 1, p, fAI =>
    match vecLoad m.control p cfg.w with
    | none => .error .oobLoad
    | some window =>
      let fAI2 :=
        if m.capacity ≤ fAI then
          let availMask := laneMask window
            (fun c => c &&& kAvailableSlotFlag == kAvailableSlotFlag)
          if availMask ≠ 0 then p + lsb availMask else fAI
        else fAI
      let controlMask := laneMask window (fun c => c == frag)
      let unusedMask := laneMask window (fun c => c == kUnused)
      if controlMask = 0 then
        if unusedMask ≠ 0 then vecClaim m frag fAI2
        else vecStableLoop cfg m key frag n
          ((p + kControlAlignment true cfg.arch) % m.capacity) fAI2
      else
        let bitmask := if unusedMask = 0 then 2 ^ 64 - 1 else lowMask (lsb unusedMask)
        match vecInnerMatch m key p 128 0 (controlMask &&& bitmask) with
        | .error e => .error e
        | .ok (some j) => .ok (m, some j, false)
        | .ok none =>
          if unusedMask ≠ 0 then vecClaim m frag fAI2
          else vecStableLoop cfg m key frag n
            ((p + kControlAlignment true cfg.arch) % m.capacity) fAI2

/-- Loop of `Grow` under the SIMD build (same `i < m_count` bound). -/
def vecGrowLoop (ins : Map Key Value → Key × Value → Except VecError (Map Key Value))
    (src : Map Key Value) :
    Map Key Value → List Nat → Except VecError (Map Key Value)
  | temp, [] => .ok temp
  | temp, i :: rest =>
    if src.control.getD i kUnused &&& kAvailableSlotFlag = 0 then
      match ins temp (src.kvp.getD i default) with
      | .error e => .error e
      | .ok temp2 => vecGrowLoop ins src temp2 rest
    else vecGrowLoop ins src temp rest

/-- `Grow(_newCapacity)` under the SIMD build, parametrized by the unstable
insert used for re-placement. -/
def vecGrowWith (cfg : Cfg Key)
    (ins : Map Key Value → Key × Value → Except VecError (Map Key Value))
    (m : Map Key Value) (newCapacity : Nat) : Except VecError (Map Key Value) :=
  if m.capacity = 0 then .ok (vecGrowFresh cfg newCapacity)
  else vecGrowLoop ins m (vecMapNew cfg newCapacity) (List.range m.count)

/-- `FindAndAllocateSlot<Fast>` under the SIMD build, with fuel for the mutual
recursion with `Grow` (same load-factor pre-check as the scalar build,
including the `size_t` wrap of `m_count + 1`). -/
def vecFasF (cfg : Cfg Key) : Nat → Bool → Map Key Value → Key →
    Except VecError (Map Key Value × Option Nat × Bool)
  | 0, _, _, _ => .error .fuelOut
  | fuel + 1, fast, m, k =>
    let grown : Except VecError (Map Key Value) :=
      if m.capacity = 0 then
        vecGrowWith cfg
          (fun temp pair => (vecFasF cfg fuel true temp pair.1).map
            (fun r => writeKvp r pair)) m 32
      else if 10 * ((m.count + 1) % 2 ^ 64) > 7 * m.capacity then
        vecGrowWith cfg
          (fun temp pair => (vecFasF cfg fuel true temp pair.1).map
            (fun r => writeKvp r pair)) m (m.capacity * 2)
      else .ok m
    match grown with
    | .error e => .error e
    | .ok m1 =>
      let h := hashOf cfg k
      if fast then vecFastLoop cfg m1 (h >>> 57) m1.capacity (h % m1.capacity)
      else vecStableLoop cfg m1 k (h >>> 57) m1.capacity (h % m1.capacity)
        m1.capacity

/-- `Insert` / `Emplace` (stable) under the SIMD build. -/
def vecInsertF (cfg : Cfg Key) (fuel : Nat) (m : Map Key Value)
    (pair : Key × Value) : Except VecError (Map Key Value × Option Nat × Bool) :=
  match vecFasF cfg fuel false m pair.1 with
  | .error e => .error e
  | .ok r => .ok (if r.2.2 then (writeKvp r pair, r.2.1, r.2.2) else r)

/-- `InsertUnstable` / `EmplaceUnstable` under the SIMD build. -/
def vecEmplaceUnstableF (cfg : Cfg Key) (fuel : Nat) (m : Map Key Value)
    (pair : Key × Value) : Except VecError (Map Key Value × Option Nat × Bool) :=
  match vecFasF cfg fuel true m pair.1 with
  | .error e => .error e
  | .ok r => .ok (writeKvp r pair, r.2.1, r.2.2)

/-! ### Operation sequences under either strategy -/

/-- A public map operation. -/
inductive MapOp (Key Value : Type) where
  | ins (k : Key) (v : Value)
  | insU (k : Key) (v : Value)
  | fnd (k : Key)
  | rem (k : Key)

/-- Run a sequence of operations with the scalar strategy, collecting each
operation's observable result: the returned slot (or `none` for the `end()`
marker) and the inserted / removed flag.  Any fault or fuel exhaustion yields
`none` for the whole run. -/
def runScalarF (cfg : Cfg Key) (fuel : Nat) :
    Map Key Value → List (MapOp Key Value) → Option (List (Option Nat × Bool))
  | _, [] => some []
  | m, .ins k v :: rest =>
    match insertF cfg fuel m (k, v) with
    | none => none
    | some r => (runScalarF cfg fuel r.1 rest).map (fun t => (r.2.1, r.2.2) :: t)
  | m, .insU k v :: rest =>
    match emplaceUnstableF cfg fuel m (k, v) with
    | none => none
    | some r => (runScalarF cfg fuel r.1 rest).map (fun t => (r.2.1, r.2.2) :: t)
  | m, .fnd k :: rest =>
    match find cfg m k with
    | .error _ => none
    | .ok s => (runScalarF cfg fuel m rest).map (fun t => (s, false) :: t)
  | m, .rem k :: rest =>
    match removeM cfg m k with
    | .error _ => none
    | .ok r => (runScalarF cfg fuel r.1 rest).map (fun t => (none, r.2) :: t)

/-- Run the same sequence with the vectorized strategy. -/
def runVecF (cfg : Cfg Key) (fuel : Nat) :
    Map Key Value → List (MapOp Key Value) → Option (List (Option Nat × Bool))
  | _, [] => some []
  | m, .ins k v :: rest =>
    match vecInsertF cfg fuel m (k, v) with
    | .error _ => none
    | .ok r => (runVecF cfg fuel r.1 rest).map (fun t => (r.2.1, r.2.2) :: t)
  | m, .insU k v :: rest =>
    match vecEmplaceUnstableF cfg fuel m (k, v) with
    | .error _ => none
    | .ok r => (runVecF cfg fuel r.1 rest).map (fun t => (r.2.1, r.2.2) :: t)
  | m, .fnd k :: rest =>
    match vecFind cfg m k with
    | .error _ => none
    | .ok s => (runVecF cfg fuel m rest).map (fun t => (s, false) :: t)
  | m, .rem k :: rest =>
    match vecRemove cfg m k with
    | .error _ => none
    | .ok r => (runVecF cfg fuel r.1 rest).map (fun t => (none, r.2) :: t)

/-! ### Concrete scenarios

`cfgColl` makes keys 1 and 2 probe from the same start index 0 while carrying
distinct 7-bit fragments (0 and 1): `hash 1 = 0`, `hash 2 = 2 ^ 57`, so
`hash >> 57` is 0 resp. 1 and `hash % 32 = 0` for both.  `cfgId` hashes a key
to itself.  Both use `Math::SimdHighestArch::alignment() = 16` and a 16-lane
`u8` batch. -/

/-- Collision hash: key `k` gets hash `(k - 1) * 2 ^ 57`. -/
def hashColl (k : Nat) : Nat := (k - 1) * 2 ^ 57

/-- Scenario configuration with the collision hash. -/
def cfgColl : Cfg Nat := ⟨hashColl, 16, 16⟩

/-- Scenario configuration with the identity hash. -/
def cfgId : Cfg Nat := ⟨fun k => k, 16, 16⟩

/-- Lazily constructed map after the stable insert of `(1, 10)`: capacity 32,
key 1 in slot 0. -/
def mapA : Option (Map Nat Nat) :=
  (insertF cfgColl 5 (mapNew cfgColl 0) (1, 10)).map (fun r => r.1)

/-- ... after also stable-inserting `(2, 20)`: key 2 lands in slot 1 (slot 0
is occupied by key 1 with a different fragment). -/
def mapAB : Option (Map Nat Nat) :=
  mapA.bind (fun m => (insertF cfgColl 5 m (2, 20)).map (fun r => r.1))

/-- The concrete two-entry map extracted from `mapAB`. -/
def mAB : Map Nat Nat := mapAB.getD default

/-- `mAB` after `Remove(1)`: slot 0 becomes a tombstone on key 2's probe path. -/
def mTomb : Map Nat Nat :=
  match removeM cfgColl mAB 1 with
  | .ok r => r.1
  | .error _ => default

/-- Capacity-32 map holding the single pair `(5, 99)` in slot 5 (identity
hash), with `m_count = 1`. -/
def mC1 : Map Nat Nat :=
  ((insertF cfgId 5 (mapNew cfgId 32) (5, 99)).map (fun r => r.1)).getD default

/-- Operation sequence exhibiting the scalar/vectorized divergence. -/
def opsC5 : List (MapOp Nat Nat) := [.ins 1 10, .ins 2 20, .fnd 2]

/-! ### Claims -/

/-- C1: the claim says every growth operation preserves the set of (key,
value) pairs.  The code's `Grow` iterates `for (auto i = 0; i < m_count; ++i)`
— the loop bound is `m_count`, not `m_capacity` — so any occupied slot whose
index is ≥ `m_count` is silently dropped.  Concretely: `mC1` holds `(5, 99)`
in slot 5 with `m_count = 1`; `Grow(64)` scans only slot 0 and produces an
empty map of capacity 64. -/
theorem c1_grow_drops_entries :
    occupiedPairs mC1 = [(5, 99)] ∧ mC1.capacity = 32 ∧ mC1.count = 1 ∧
    (growF cfgId 5 mC1 64).map (fun m => (m.capacity, m.count, occupiedPairs m))
      = some (64, 0, []) := by
  refine ⟨by decide, rfl, rfl, rfl⟩

/-- C2: the claim says `Find(k)` hits every key inserted via the stable path
while it is present.  In `mAB`, `(2, 20)` was stable-inserted and is occupied
in slot 1, yet `Find(2)` returns the `end()` marker: the scalar `Find` binds
`u8& control` to the control byte of the *start* slot once, before the loop
(slot 0 holds key 1's fragment 0, key 2's fragment is 1), so no later slot
can ever satisfy `control == expectedControl`. -/
theorem c2_find_misses_inserted_key :
    mapAB = some mAB ∧ occupiedPairs mAB = [(1, 10), (2, 20)] ∧
    find cfgColl mAB 2 = .ok none := by
  refine ⟨rfl, by decide, rfl⟩

/-- C3: the claim describes the scalar probe: inspect the control byte *of
each successive slot*, stop at the first `kUnused` byte or at a matching
fragment with equal key.  In `mAB`, slot 1's control byte equals key 2's
fragment and slot 1's key equals 2, so the described scan returns slot 1; the
code returns the `end()` marker because the single bound reference `u8&
control` never re-reads the advancing slot's byte (it stays slot 0's byte,
which also never equals `kUnused`, so the loop only stops after `m_capacity`
iterations). -/
theorem c3_scalar_probe_never_rereads :
    mAB.control.getD 1 kUnused = hashOf cfgColl 2 >>> 57 ∧
    (mAB.kvp.getD 1 default).1 = 2 ∧
    mAB.control.getD 2 kUnused = kUnused ∧
    find cfgColl mAB 1 = .ok (some 0) ∧
    find cfgColl mAB 2 = .ok none := by
  refine ⟨by decide, by decide, by decide, rfl, rfl⟩

/-- C4: the claim says a stable insert of an already-present key returns the
existing occupied slot with the not-inserted flag, count unchanged, even past
tombstones on the probe path.  In `mTomb`, key 2 is occupied in slot 1 and
slot 0 (on key 2's probe path) is a tombstone; the scalar stable
`FindAndAllocateSlot` claims slot 0 the moment it sees
`controlSlot & kAvailableSlotFlag` — it never scans on past the tombstone —
returning `(slot 0, inserted = true)`, incrementing `m_count` to 2 and
leaving the map with the duplicate entries `[(2, 21), (2, 20)]`. -/
theorem c4_stable_insert_claims_tombstone :
    removeM cfgColl mAB 1 = .ok (mTomb, true) ∧
    mTomb.control.getD 0 kUnused = kTombstone ∧
    occupiedPairs mTomb = [(2, 20)] ∧
    (insertF cfgColl 5 mTomb (2, 21)).map
        (fun r => (r.2.1, r.2.2, r.1.count, occupiedPairs r.1))
      = some (some 0, true, 2, [(2, 21), (2, 20)]) := by
  refine ⟨rfl, by decide, by decide, rfl⟩

/-- C5: the claim says the scalar and vectorized strategies return identical
result sequences for identical operation sequences.  For the sequence
`[Insert (1, 10), Insert (2, 20), Find 2]` from a lazily-constructed map,
both strategies report the same two inserts, but `Find 2` misses under the
scalar strategy (the bound-reference bug of `Find`) and hits slot 1 under the
vectorized one. -/
theorem c5_strategies_diverge :
    runScalarF cfgColl 5 (mapNew cfgColl 0) opsC5
      = some [(some 0, true), (some 1, true), (none, false)] ∧
    runVecF cfgColl 5 (vecMapNew cfgColl 0) opsC5
      = some [(some 0, true), (some 1, true), (some 1, false)] := by
  refine ⟨rfl, rfl⟩

/-- C6: the claim says that with vectorized probing the control buffer is
padded past the capacity and the capacity is rounded up to the batch
alignment, so batch loads stay in bounds.  The source constant is inverted
(`kControlAlignment = kUseSimd ? 1 : alignment()`), so under SIMD the
alignment is 1 and the padding 0: a capacity of 33 is not rounded, a
capacity-32 control buffer is exactly 32 bytes, and the very first batch load
of `Find` on a key probing from slot 31 (16 lanes, bytes 31..46) reads past
the allocation. -/
theorem c6_simd_padding_missing :
    kControlAlignment true 16 = 1 ∧ kControlBufferPadding true 16 = 0 ∧
    (vecGrowFresh cfgId 33 : Map Nat Nat).capacity = 33 ∧
    (vecGrowFresh cfgId 32 : Map Nat Nat).control.length = 32 ∧
    vecFind cfgId (vecGrowFresh cfgId 32 : Map Nat Nat) 31 = .error .oobLoad := by
  refine ⟨rfl, rfl, rfl, by decide, rfl⟩

/-- C8: the claim says `Remove(k)` returns true iff `k` is present.  In `mAB`
the pair `(2, 20)` is present (occupied slot 1), yet `Remove(2)` returns
false and leaves the map unchanged, because `Remove` delegates to the broken
scalar `Find` (see C2/C3). -/
theorem c8_remove_misses_present_key :
    (2, 20) ∈ occupiedPairs mAB ∧ removeM cfgColl mAB 2 = .ok (mAB, false) := by
  refine ⟨by decide, rfl⟩

/-- `AlignUp` never rounds down. -/
theorem alignUp_ge (n a : Nat) : n ≤ alignUp n a := by
  unfold alignUp
  split
  · exact Nat.le_refl n
  · rename_i ha
    have h1 := Nat.div_add_mod (n + a - 1) a
    have h1b : a * ((n + a - 1) / a) = (n + a - 1) / a * a := Nat.mul_comm _ _
    have h2 := Nat.mod_lt (n + a - 1) (Nat.pos_of_ne_zero ha)
    omega

/-- `AlignUp` fixes multiples of the alignment. -/
theorem alignUp_of_dvd {n a : Nat} (h : a ∣ n) : alignUp n a = n := by
  unfold alignUp
  split
  · rfl
  · rename_i ha
    obtain ⟨c, rfl⟩ := h
    have ha2 : 0 < a := Nat.pos_of_ne_zero ha
    have hdiv : (a * c + a - 1) / a = c := by
      rw [Nat.add_sub_assoc ha2, Nat.mul_add_div ha2]
      simp [Nat.div_eq_of_lt (show a - 1 < a by omega)]
    rw [hdiv, Nat.mul_comm]

/-- The 7-bit control fragment of a 64-bit hash is below 128. -/
theorem frag_lt (cfg : Cfg Key) (k : Key) : hashOf cfg k >>> 57 < 128 := by
  have h : cfg.hashFn k % 2 ^ 64 < 2 ^ 64 := Nat.mod_lt _ (by norm_num)
  have heq : hashOf cfg k >>> 57 = cfg.hashFn k % 2 ^ 64 / 2 ^ 57 := by
    simp [hashOf, Nat.shiftRight_eq_div_pow]
  rw [heq]
  have h2 : cfg.hashFn k % 2 ^ 64 / 2 ^ 57 < 2 ^ 7 :=
    Nat.div_lt_of_lt_mul (by norm_num at h ⊢; omega)
  omega

/-- A value below 128 has the `kAvailableSlotFlag` bit clear. -/
theorem land_flag_of_lt : ∀ c : Nat, c < 128 → c &&& 128 = 0 := by decide

/-- `getD` on a replicated list with the replicated value as default. -/
theorem repl_getD (n i : Nat) {α : Type} (x : α) :
    (List.replicate n x).getD i x = x := by
  induction n generalizing i with
  | zero => simp
  | succ n ih =>
    cases i with
    | zero => simp [List.replicate]
    | succ i =>
      rw [List.replicate, List.getD_cons_succ]
      exact ih i

/-- The scalar stable probe loop claims an unused start slot immediately. -/
theorem probeLoop_claims_unused (m : Map Key Value) (k : Key) (frag n p : Nat)
    (hc : m.control.getD p kUnused = kUnused) (hf : frag ≠ kUnused) :
    probeLoop false m k frag (n + 1) p
      = ({ m with control := m.control.set p frag, count := m.count + 1 },
        some p, true) := by
  have h1 : ¬ (True ∧ m.control.getD p kUnused = frag ∧
      (m.kvp.getD p default).1 = k) := by
    rw [hc]
    rintro ⟨-, h2, -⟩
    exact hf h2.symm
  have h2 : m.control.getD p kUnused &&& kAvailableSlotFlag ≠ 0 := by
    rw [hc]; decide
  simp only [probeLoop]
  rw [if_neg h1, if_pos h2]

/-- C10: on a capacity-0 map, `Find` and `Remove` compute
`hash % m_capacity` with `m_capacity == 0` — an unguarded division by zero —
while the insert path first grows to capacity 32 and completes normally. -/
theorem c10_capacity_zero_mod_zero (cfg : Cfg Key) (m : Map Key Value)
    (k : Key) (v : Value) (h : m.capacity = 0) :
    find cfg m k = .error .modZero ∧
    removeM cfg m k = .error .modZero ∧
    ∃ r, insertF cfg 2 m (k, v) = some r := by
  refine ⟨by simp [find, h], by simp [removeM, find, h], ?_⟩
  have hfas : fasF cfg 2 false m k
      = some (probeLoop false (growFresh cfg 32 : Map Key Value) k
          (hashOf cfg k >>> 57)
          (growFresh cfg 32 : Map Key Value).capacity
          (hashOf cfg k % (growFresh cfg 32 : Map Key Value).capacity)) := by
    simp [fasF, growWith, h]
  have hcap : 0 < (growFresh cfg 32 : Map Key Value).capacity := by
    have := alignUp_ge 32 (kControlAlignment false cfg.arch)
    simp only [growFresh]
    omega
  obtain ⟨n, hn⟩ : ∃ n, (growFresh cfg 32 : Map Key Value).capacity = n + 1 :=
    ⟨(growFresh cfg 32 : Map Key Value).capacity - 1, by omega⟩
  rw [hn] at hfas
  have hget : (growFresh cfg 32 : Map Key Value).control.getD
      (hashOf cfg k % (n + 1)) kUnused = kUnused := repl_getD _ _ _
  have hfr : hashOf cfg k >>> 57 ≠ kUnused := by
    have := frag_lt cfg k
    simp only [kUnused]
    omega
  rw [probeLoop_claims_unused (growFresh cfg 32 : Map Key Value) k _ n _ hget hfr]
    at hfas
  have hsome : (insertF cfg 2 m (k, v)).isSome = true := by
    simp only [insertF, hfas, if_true, Option.isSome_some]
  exact Option.isSome_iff_exists.mp hsome

/-- Witness for C10 at the default-constructed map and key 7. -/
theorem c10_witness :
    find cfgColl (mapNew cfgColl 0 : Map Nat Nat) 7 = .error .modZero ∧
    removeM cfgColl (mapNew cfgColl 0 : Map Nat Nat) 7 = .error .modZero ∧
    ∃ r, insertF cfgColl 2 (mapNew cfgColl 0 : Map Nat Nat) (7, 1) = some r :=
  c10_capacity_zero_mod_zero cfgColl _ 7 1 rfl

/-! ### Count underflow through phantom removes (C7, C9)

`m_count` is a `size_t`.  Because the scalar `Find` never re-reads the
control byte of the slot it is probing (the bound-once reference, see C2/C3),
a probe whose start slot stays occupied with a matching fragment keeps
"hitting" the stale payload of a slot that was already tombstoned: `Remove`
of the same key can succeed repeatedly, decrementing `m_count` below the true
number of occupied slots and, at 0, wrapping it around to `2 ^ 64 - 1`. -/

/-- Run a sequence of operations with the scalar strategy, keeping the final
map state (`none` on a fault or fuel exhaustion). -/
def runScalarState (cfg : Cfg Key) (fuel : Nat) :
    Map Key Value → List (MapOp Key Value) → Option (Map Key Value)
  | m, [] => some m
  | m, .ins k v :: rest =>
    (insertF cfg fuel m (k, v)).bind
      (fun r => runScalarState cfg fuel r.1 rest)
  | m, .insU k v :: rest =>
    (emplaceUnstableF cfg fuel m (k, v)).bind
      (fun r => runScalarState cfg fuel r.1 rest)
  | m, .fnd k :: rest =>
    match find cfg m k with
    | .error _ => none
    | .ok _ => runScalarState cfg fuel m rest
  | m, .rem k :: rest =>
    match removeM cfg m k with
    | .error _ => none
    | .ok r => runScalarState cfg fuel r.1 rest

/-- Configuration hashing every key to 0: every key probes from slot 0 with
fragment 0. -/
def cfgZero : Cfg Nat := ⟨fun _ => 0, 16, 16⟩

/-- Public-operation sequence driving `m_count` into underflow: the second
and third `Remove(2)` succeed against the stale payload of tombstoned slot 1
(the bound-once `Find` reference keeps testing slot 0's control byte, which
matches every fragment under `cfgZero`), so `--m_count` runs three times
after only two insertions: 2, 1, 0, then wrap to `2 ^ 64 - 1`. -/
def opsC7 : List (MapOp Nat Nat) := [.ins 1 10, .ins 2 20, .rem 2, .rem 2, .rem 2]

/-- The resulting reachable state: capacity 32, one occupied pair,
`m_count = 2 ^ 64 - 1`. -/
def mC7 : Map Nat Nat :=
  (runScalarState cfgZero 5 (mapNew cfgZero 0) opsC7).getD default

/-- C7: the claim says that after any stable `Insert` / `Emplace` on a
reachable state completes, `count / capacity ≤ 0.7` (growth runs first
whenever the bound would be exceeded).  Five public operations drive
`m_count` to `2 ^ 64 - 1` (phantom removes, see `opsC7`); a stable insert of
the still-present key 1 then *completes normally* — the pre-check computes
`m_count + 1`, which wraps to 0 in `size_t`, so no growth runs, and the probe
returns the existing slot — leaving `count / capacity = (2 ^ 64 - 1) / 32`,
far above 0.7. -/
theorem c7_load_factor_violated :
    runScalarState cfgZero 5 (mapNew cfgZero 0) opsC7 = some mC7 ∧
    mC7.capacity = 32 ∧ mC7.count = 2 ^ 64 - 1 ∧
    occupiedPairs mC7 = [(1, 10)] ∧
    insertF cfgZero 5 mC7 (1, 99) = some (mC7, some 0, false) ∧
    ¬ 10 * mC7.count ≤ 7 * mC7.capacity := by
  refine ⟨rfl, rfl, by decide, by decide, rfl, by decide⟩

/-- Public-operation sequence (identity hash) producing an over-full map:
keys 1 and 33 share probe start 1, so after `Remove(33)` tombstones slot 2,
every further `Remove(33)` phantom-hits the stale payload there and deflates
`m_count`.  Interleaving 20 phantom removes lets 30 pairs accumulate at
capacity 32 with `m_count = 10`, without the load-factor pre-check ever
firing. -/
def opsC9 : List (MapOp Nat Nat) :=
  [.ins 1 1, .ins 33 33, .rem 33]
    ++ ((List.range 20).map (fun i => .ins (i + 3) (i + 3)))
    ++ (List.replicate 20 (.rem 33))
    ++ ((List.range 9).map (fun i => .ins (i + 23) (i + 23)))

/-- The resulting reachable over-full state: capacity 32, 30 occupied pairs,
`m_count = 10`. -/
def mOverfull : Map Nat Nat :=
  (runScalarState cfgId 6 (mapNew cfgId 0) opsC9).getD default

/-- C9: the claim says `Defragment()` leaves the set of (key, value) pairs
and the capacity unchanged for every map.  On the reachable over-full state
`mOverfull` (30 occupied pairs at capacity 32, deflated `m_count = 10`), the
rebuild's own load-factor pre-checks fire mid-pass: the temporary grows to
capacity 64, and that growth's `i < m_count` loop (see C1) drops the pairs
`(22, 22)` and `(23, 23)`, which sit in slots 22 and 23 ≥ the temporary's
count 22 at that moment.  `Defragment` returns capacity 64 with 28 of the 30
pairs. -/
theorem c9_defragment_loses_pairs :
    runScalarState cfgId 6 (mapNew cfgId 0) opsC9 = some mOverfull ∧
    mOverfull.capacity = 32 ∧ (occupiedPairs mOverfull).length = 30 ∧
    (22, 22) ∈ occupiedPairs mOverfull ∧ (23, 23) ∈ occupiedPairs mOverfull ∧
    (defragmentF cfgId 6 mOverfull).map (fun r =>
        (r.capacity, (occupiedPairs r).length,
          decide ((22, 22) ∈ occupiedPairs r),
          decide ((23, 23) ∈ occupiedPairs r)))
      = some (64, 28, false, false) := by
  refine ⟨rfl, rfl, by decide, by decide, by decide, rfl⟩

end FlatHashMap
